import Mathlib

/-!
Verification of the compact board representation and simulator of the
battlesnake-game-types repository, as a shallow embedding of
src/compact_representation/standard/mod.rs in Lean 4.

Conventions:
* Machine integers are modelled as Nat or Int with explicit wrap (for
  example `% 256` for a Rust `as u8` cast) where overflow is possible.
* Fallible Rust paths return an explicit result type; a Rust panic (an
  assertion failure or an out-of-bounds array index) is modelled by a
  distinguished `crash` outcome, kept separate from recoverable errors.
* Code of the repository that is not part of the provided source file
  (the packed-cell core, the wire representation, the simulator core) is
  modelled from the specification; every such definition carries a doc
  comment starting with `Modelled from the spec:`.
-/

/-- Modelled from the spec: a 2D grid coordinate with signed components
(the wire representation uses signed integer coordinates). -/
structure Position where
  x : Int
  y : Int
deriving DecidableEq, Repr

/-- Modelled from the spec: one grid square packed into a single integer.
The spec fixes only the logical fields and that the food and hazard flags
are bit-orthogonal to the occupancy encoding; the model uses this layout:
bits 0-2 hold the occupancy kind (0 = empty, 1 = body, 2 = double-stacked
body, 3 = triple-stacked body, 4 = head), bit 3 the food flag, bit 4 the
hazard flag, bits 5-9 the owning snake id, bits 10 and up the linked
index toward the tail. -/
abbrev Cell := Nat

/-- Occupancy kind field of a packed cell (0 = empty, 1 = body,
2 = double-stacked, 3 = triple-stacked, 4 = head). -/
def Cell.kind (c : Cell) : Nat := c % 8

/-- Food flag bit of a packed cell. -/
def Cell.foodBit (c : Cell) : Nat := c / 8 % 2

/-- Hazard flag bit of a packed cell. -/
def Cell.hazardBit (c : Cell) : Nat := c / 16 % 2

/-- Owning snake id field of a packed cell (meaningful only when occupied). -/
def Cell.idBits (c : Cell) : Nat := c / 32 % 32

/-- Modelled from the spec: the empty cell. -/
def Cell.empty : Cell := 0

/-- Modelled from the spec: query, true iff the cell holds no snake segment. -/
def Cell.is_empty (c : Cell) : Bool := decide (Cell.kind c = 0)

/-- Modelled from the spec: query for the food flag. -/
def Cell.is_food (c : Cell) : Bool := decide (Cell.foodBit c = 1)

/-- Modelled from the spec: query for the hazard flag. -/
def Cell.is_hazard (c : Cell) : Bool := decide (Cell.hazardBit c = 1)

/-- Modelled from the spec: query, true iff the cell is a snake head. -/
def Cell.is_head (c : Cell) : Bool := decide (Cell.kind c = 4)

/-- Modelled from the spec: query, true iff the cell is a (possibly
stacked) non-head body segment. -/
def Cell.is_body (c : Cell) : Bool :=
  decide (Cell.kind c = 1 ∨ Cell.kind c = 2 ∨ Cell.kind c = 3)

/-- Modelled from the spec: owning agent id, `none` when the cell is empty. -/
def Cell.get_snake_id (c : Cell) : Option Nat :=
  if Cell.kind c = 0 then none else some (Cell.idBits c)

/-- Modelled from the spec: the linked/tail index stored in the cell. -/
def Cell.get_idx (c : Cell) : Nat := c / 1024

/-- Modelled from the spec: set the food flag, leaving every other field
unchanged. -/
def Cell.set_food (c : Cell) : Cell := if Cell.foodBit c = 1 then c else c + 8

/-- Modelled from the spec: set the hazard flag, leaving every other field
unchanged. -/
def Cell.set_hazard (c : Cell) : Cell := if Cell.hazardBit c = 1 then c else c + 16

/-- Modelled from the spec: clear the hazard flag, leaving every other
field unchanged. -/
def Cell.clear_hazard (c : Cell) : Cell := if Cell.hazardBit c = 1 then c - 16 else c

/-- Modelled from the spec: clear the occupancy (kind, owning id and
linked index) while preserving the food and hazard flags. -/
def Cell.remove (c : Cell) : Cell := Cell.foodBit c * 8 + Cell.hazardBit c * 16

/-- Modelled from the spec: construct an ordinary body segment. -/
def Cell.make_body_piece (sid idx : Nat) : Cell := 1 + 32 * (sid % 32) + 1024 * idx

/-- Modelled from the spec: construct a double-stacked body segment. -/
def Cell.make_double_stacked_piece (sid idx : Nat) : Cell := 2 + 32 * (sid % 32) + 1024 * idx

/-- Modelled from the spec: construct a triple-stacked body segment
(terminal, self-referential: it stores no chain link). -/
def Cell.make_triple_stacked_piece (sid : Nat) : Cell := 3 + 32 * (sid % 32)

/-- Modelled from the spec: construct a head cell whose stored index is
the tail's own index. -/
def Cell.make_snake_head (sid idx : Nat) : Cell := 4 + 32 * (sid % 32) + 1024 * idx

lemma cell_set_hazard_fields (c : Cell) :
    Cell.kind (Cell.set_hazard c) = Cell.kind c ∧
    Cell.foodBit (Cell.set_hazard c) = Cell.foodBit c ∧
    Cell.idBits (Cell.set_hazard c) = Cell.idBits c ∧
    Cell.get_idx (Cell.set_hazard c) = Cell.get_idx c ∧
    Cell.hazardBit (Cell.set_hazard c) = 1 := by
  unfold Cell.set_hazard Cell.kind Cell.foodBit Cell.idBits Cell.get_idx Cell.hazardBit
  split_ifs with h
  · omega
  · omega

lemma cell_clear_hazard_fields (c : Cell) :
    Cell.kind (Cell.clear_hazard c) = Cell.kind c ∧
    Cell.foodBit (Cell.clear_hazard c) = Cell.foodBit c ∧
    Cell.idBits (Cell.clear_hazard c) = Cell.idBits c ∧
    Cell.get_idx (Cell.clear_hazard c) = Cell.get_idx c ∧
    Cell.hazardBit (Cell.clear_hazard c) = 0 := by
  unfold Cell.clear_hazard Cell.kind Cell.foodBit Cell.idBits Cell.get_idx Cell.hazardBit
  split_ifs with h
  · omega
  · omega

lemma cell_set_food_fields (c : Cell) :
    Cell.kind (Cell.set_food c) = Cell.kind c ∧
    Cell.hazardBit (Cell.set_food c) = Cell.hazardBit c ∧
    Cell.idBits (Cell.set_food c) = Cell.idBits c ∧
    Cell.get_idx (Cell.set_food c) = Cell.get_idx c ∧
    Cell.foodBit (Cell.set_food c) = 1 := by
  unfold Cell.set_food Cell.kind Cell.foodBit Cell.idBits Cell.get_idx Cell.hazardBit
  split_ifs with h
  · omega
  · omega

/-- C6: for every Cell value, set_hazard and clear_hazard never change the
occupancy state (the kind field, including the stacking level), the owning
snake id, the food flag, or the linked index, and set_food never changes
the hazard flag; in particular a double-stacked cell that is hazard-flagged
and then hazard-cleared still reports is_body = true and is_hazard = false. -/
theorem cell_hazard_flags_orthogonal (c : Cell) (sid idx : Nat) :
    (Cell.kind (Cell.set_hazard c) = Cell.kind c ∧
      Cell.get_snake_id (Cell.set_hazard c) = Cell.get_snake_id c ∧
      Cell.is_food (Cell.set_hazard c) = Cell.is_food c ∧
      Cell.get_idx (Cell.set_hazard c) = Cell.get_idx c) ∧
    (Cell.kind (Cell.clear_hazard c) = Cell.kind c ∧
      Cell.get_snake_id (Cell.clear_hazard c) = Cell.get_snake_id c ∧
      Cell.is_food (Cell.clear_hazard c) = Cell.is_food c ∧
      Cell.get_idx (Cell.clear_hazard c) = Cell.get_idx c) ∧
    Cell.is_hazard (Cell.set_food c) = Cell.is_hazard c ∧
    (Cell.is_body (Cell.clear_hazard (Cell.set_hazard
        (Cell.make_double_stacked_piece sid idx))) = true ∧
      Cell.is_hazard (Cell.clear_hazard (Cell.set_hazard
        (Cell.make_double_stacked_piece sid idx))) = false) := by
  obtain ⟨hk, hf, hi, hx, hz⟩ := cell_set_hazard_fields c
  obtain ⟨ck, cf, ci, cx, cz⟩ := cell_clear_hazard_fields c
  obtain ⟨fk, fz, fi, fx, ff⟩ := cell_set_food_fields c
  refine ⟨⟨hk, ?_, ?_, hx⟩, ⟨ck, ?_, ?_, cx⟩, ?_, ?_, ?_⟩
  · unfold Cell.get_snake_id; rw [hk, hi]
  · unfold Cell.is_food; rw [hf]
  · unfold Cell.get_snake_id; rw [ck, ci]
  · unfold Cell.is_food; rw [cf]
  · unfold Cell.is_hazard; rw [fz]
  · obtain ⟨k2, _, _, _, _⟩ :=
      cell_clear_hazard_fields (Cell.set_hazard (Cell.make_double_stacked_piece sid idx))
    obtain ⟨k1, _, _, _, _⟩ := cell_set_hazard_fields (Cell.make_double_stacked_piece sid idx)
    unfold Cell.is_body
    rw [k2, k1]
    unfold Cell.kind Cell.make_double_stacked_piece
    simp
    omega
  · obtain ⟨_, _, _, _, z2⟩ :=
      cell_clear_hazard_fields (Cell.set_hazard (Cell.make_double_stacked_piece sid idx))
    unfold Cell.is_hazard
    rw [z2]
    simp

/-- C7: for every Cell value, remove resets the occupancy state to empty
while leaving the food and hazard flags unchanged; consequently any cell to
which remove and then set_hazard are applied satisfies is_empty,
is_hazard, and get_snake_id = none. -/
theorem cell_remove_resets_occupancy (c : Cell) :
    (Cell.is_empty (Cell.remove c) = true ∧
      Cell.is_food (Cell.remove c) = Cell.is_food c ∧
      Cell.is_hazard (Cell.remove c) = Cell.is_hazard c ∧
      Cell.get_idx (Cell.remove c) = 0) ∧
    (Cell.is_empty (Cell.set_hazard (Cell.remove c)) = true ∧
      Cell.is_hazard (Cell.set_hazard (Cell.remove c)) = true ∧
      Cell.get_snake_id (Cell.set_hazard (Cell.remove c)) = none) := by
  obtain ⟨hk, hf, _, _, hz⟩ := cell_set_hazard_fields (Cell.remove c)
  have hrk : Cell.kind (Cell.remove c) = 0 := by
    unfold Cell.remove Cell.kind Cell.foodBit Cell.hazardBit; omega
  have hrf : Cell.foodBit (Cell.remove c) = Cell.foodBit c := by
    unfold Cell.remove Cell.foodBit Cell.hazardBit; omega
  have hrz : Cell.hazardBit (Cell.remove c) = Cell.hazardBit c := by
    unfold Cell.remove Cell.foodBit Cell.hazardBit; omega
  have hrx : Cell.get_idx (Cell.remove c) = 0 := by
    unfold Cell.remove Cell.get_idx Cell.foodBit Cell.hazardBit; omega
  refine ⟨⟨?_, ?_, ?_, hrx⟩, ?_, ?_, ?_⟩
  · unfold Cell.is_empty; rw [hrk]; simp
  · unfold Cell.is_food; rw [hrf]
  · unfold Cell.is_hazard; rw [hrz]
  · unfold Cell.is_empty; rw [hk, hrk]; simp
  · unfold Cell.is_hazard; rw [hz]; simp
  · unfold Cell.get_snake_id; rw [hk, hrk]; simp

/-- Sanity check mirroring the source test test_clear_hazard. -/
theorem cell_model_matches_test_clear_hazard :
    (Cell.is_food (Cell.clear_hazard (Cell.set_hazard (Cell.set_food Cell.empty))) = true ∧
      Cell.is_hazard (Cell.clear_hazard (Cell.set_hazard (Cell.set_food Cell.empty))) = false) ∧
    (Cell.is_body (Cell.clear_hazard (Cell.set_hazard
        (Cell.make_double_stacked_piece 0 0))) = true) := by decide

/-- Sanity check mirroring the source test test_remove. -/
theorem cell_model_matches_test_remove :
    Cell.is_empty (Cell.set_hazard (Cell.remove (Cell.make_body_piece 3 17))) = true ∧
    Cell.is_hazard (Cell.set_hazard (Cell.remove (Cell.make_body_piece 3 17))) = true ∧
    Cell.get_snake_id (Cell.set_hazard (Cell.remove (Cell.make_body_piece 3 17))) = none ∧
    Cell.get_idx (Cell.set_hazard (Cell.remove (Cell.make_body_piece 3 17))) = 0 := by decide

/-- The compact board, mirroring the adapter struct plus the fields the
core stores: the arguments of the core constructor (hazard damage, cells,
per-agent healths, head indices and lengths, the stored width) and the
actual height, which the spec records as board metadata. Modelled from the
spec where the core CellBoard type is concerned: the core type itself is
not part of the provided source file. The fixed-size arrays are modelled
as total functions from indices. -/
structure CBoard where
  hazardDamage : Nat
  cells : Nat → Cell
  healths : Nat → Nat
  heads : Nat → Int
  lengths : Nat → Nat
  width : Nat
  height : Nat

/-- off_board from the source: true iff x < 0, or x >= actual width, or
y < 0, or y >= actual height. -/
def CBoard.off_board (b : CBoard) (p : Position) : Bool :=
  decide (p.x < 0) || decide ((b.width : Int) ≤ p.x) ||
  decide (p.y < 0) || decide ((b.height : Int) ≤ p.y)

/-- Membership of a coordinate in the rectangle [0, w) x [0, h). -/
def inRectP (w h : Nat) (p : Position) : Prop :=
  0 ≤ p.x ∧ p.x < (w : Int) ∧ 0 ≤ p.y ∧ p.y < (h : Int)

instance (w h : Nat) (p : Position) : Decidable (inRectP w h p) := by
  unfold inRectP; infer_instance

lemma off_board_iff (b : CBoard) (p : Position) :
    CBoard.off_board b p = true ↔ ¬ inRectP b.width b.height p := by
  unfold CBoard.off_board inRectP
  simp only [Bool.or_eq_true, decide_eq_true_eq]
  omega

/-- C8: for every board and every position, off_board returns true if and
only if the position lies outside the rectangle
[0, actual_width) x [0, actual_height), i.e. x < 0 or x >= actual_width or
y < 0 or y >= actual_height. -/
theorem off_board_spec (b : CBoard) (p : Position) :
    (CBoard.off_board b p = true ↔ ¬ inRectP b.width b.height p) ∧
    (CBoard.off_board b p = true ↔
      (p.x < 0 ∨ (b.width : Int) ≤ p.x ∨ p.y < 0 ∨ (b.height : Int) ≤ p.y)) := by
  refine ⟨off_board_iff b p, ?_⟩
  rw [off_board_iff b p]
  unfold inRectP
  omega

/-- Modelled from the spec: one of the four orthogonal moves. -/
inductive Move
  | up
  | down
  | left
  | right
deriving DecidableEq, Repr

/-- Modelled from the spec: the list of all four moves. -/
def Move.all : List Move := [.up, .down, .left, .right]

/-- Modelled from the spec: the unit vector of a move (up increases y). -/
def Move.to_vector : Move → Position
  | .up => ⟨0, 1⟩
  | .down => ⟨0, -1⟩
  | .left => ⟨-1, 0⟩
  | .right => ⟨1, 0⟩

/-- Modelled from the spec: coordinate-wise vector addition on positions. -/
def Position.add_vec (p v : Position) : Position := ⟨p.x + v.x, p.y + v.y⟩

/-- Modelled from the spec: convert a linear cell index back to a 2D
coordinate given the board's stored width (inverse of y * width + x). -/
def into_position (idx w : Nat) : Position := ⟨((idx % w : Nat) : Int), ((idx / w : Nat) : Int)⟩

/-- Modelled from the spec: the linear index of an in-range coordinate,
y * width + x (CellIndex::new; it is undefined for out-of-range
coordinates, which the model clamps at zero — the source only ever keeps
indices of in-range coordinates). -/
def ciOf (p : Position) (w : Nat) : Nat := (p.y * (w : Int) + p.x).toNat

/-- possible_moves from the source: map each of the four moves to its
(move, new position, new index) triple, drop those whose position is off
the board, and return the (move, index) pairs. -/
def CBoard.possible_moves (b : CBoard) (pos : Nat) : List (Move × Nat) :=
  ((Move.all.map (fun mv =>
      let head_pos := into_position pos b.width
      let new_head := head_pos.add_vec mv.to_vector
      (mv, new_head, ciOf new_head b.width))).filter
    (fun t => ! b.off_board t.2.1)).map (fun t => (t.1, t.2.2))

/-- neighbors from the source: the same pipeline as possible_moves but
returning only the new indices. -/
def CBoard.neighbors (b : CBoard) (pos : Nat) : List Nat :=
  ((Move.all.map (fun mv =>
      let head_pos := into_position pos b.width
      let new_head := head_pos.add_vec mv.to_vector
      (new_head, ciOf new_head b.width))).filter
    (fun t => ! b.off_board t.1)).map (fun t => t.2)

/-- C10: possible_moves and neighbors return exactly the orthogonally
adjacent positions reachable by one of the four moves that are not off the
board — at most 4 entries, every returned index the encoding of a position
inside [0, actual_width) x [0, actual_height) — and the result is
independent of the occupancy, food and hazard state of the board: it only
depends on the board's width and height. -/
theorem neighbor_enumeration_spec (b b' : CBoard) (pos : Nat)
    (hw : b'.width = b.width) (hh : b'.height = b.height) :
    (b.possible_moves pos).length ≤ 4 ∧
    (b.neighbors pos).length ≤ 4 ∧
    b.neighbors pos = (b.possible_moves pos).map Prod.snd ∧
    (∀ ci : Nat, ci ∈ b.neighbors pos ↔ ∃ mv ∈ Move.all,
      inRectP b.width b.height ((into_position pos b.width).add_vec mv.to_vector) ∧
      ci = ciOf ((into_position pos b.width).add_vec mv.to_vector) b.width) ∧
    b'.possible_moves pos = b.possible_moves pos ∧
    b'.neighbors pos = b.neighbors pos := by
  refine ⟨?_, ?_, ?_, ?_, ?_, ?_⟩
  · unfold CBoard.possible_moves
    calc (((Move.all.map _).filter _).map _).length
        = ((Move.all.map _).filter _).length := List.length_map _ _
      _ ≤ (Move.all.map (fun mv =>
            let head_pos := into_position pos b.width
            let new_head := head_pos.add_vec mv.to_vector
            (mv, new_head, ciOf new_head b.width))).length := List.length_filter_le _ _
      _ = Move.all.length := List.length_map _ _
      _ ≤ 4 := by unfold Move.all; simp
  · unfold CBoard.neighbors
    calc (((Move.all.map _).filter _).map _).length
        = ((Move.all.map _).filter _).length := List.length_map _ _
      _ ≤ (Move.all.map (fun mv =>
            let head_pos := into_position pos b.width
            let new_head := head_pos.add_vec mv.to_vector
            (new_head, ciOf new_head b.width))).length := List.length_filter_le _ _
      _ = Move.all.length := List.length_map _ _
      _ ≤ 4 := by unfold Move.all; simp
  · unfold CBoard.neighbors CBoard.possible_moves
    simp [List.filter_map, List.map_map, Function.comp_def]
  · intro ci
    unfold CBoard.neighbors
    simp only [List.mem_map, List.mem_filter, List.mem_map, Bool.not_eq_eq_eq_not,
      Bool.not_true, ← Bool.not_eq_true]
    constructor
    · rintro ⟨⟨nh, i⟩, ⟨⟨mv, hmv, heq⟩, hoff⟩, rfl⟩
      refine ⟨mv, hmv, ?_, ?_⟩
      · have h2 := (off_board_iff b nh).not_left
        simp only [Decidable.not_not] at h2
        have : nh = (into_position pos b.width).add_vec mv.to_vector := by
          have h3 := congrArg Prod.fst heq; simpa using h3.symm
        rw [← this]
        exact h2.mp (by simpa using hoff)
      · have := congrArg Prod.snd heq; simpa using this.symm
    · rintro ⟨mv, hmv, hin, rfl⟩
      refine ⟨((into_position pos b.width).add_vec mv.to_vector,
        ciOf ((into_position pos b.width).add_vec mv.to_vector) b.width),
        ⟨⟨mv, hmv, rfl⟩, ?_⟩, rfl⟩
      simp only [← Bool.not_eq_true]
      intro hc
      exact (off_board_iff b _).mp (by simpa using hc) hin
  · unfold CBoard.possible_moves CBoard.off_board
    rw [hw, hh]
  · unfold CBoard.neighbors CBoard.off_board
    rw [hw, hh]

/-- A concrete board used to instantiate theorems about queries. -/
def bQuery : CBoard :=
  { hazardDamage := 15, cells := fun _ => Cell.empty, healths := fun _ => 0,
    heads := fun _ => 0, lengths := fun _ => 0, width := 11, height := 11 }

/-- Witness for C10: the theorem applied at a concrete board and position. -/
theorem neighbor_enumeration_spec_witness :
    (bQuery.width = bQuery.width ∧ bQuery.height = bQuery.height) ∧
    ((bQuery.possible_moves 0).length ≤ 4 ∧
    (bQuery.neighbors 0).length ≤ 4 ∧
    bQuery.neighbors 0 = (bQuery.possible_moves 0).map Prod.snd ∧
    (∀ ci : Nat, ci ∈ bQuery.neighbors 0 ↔ ∃ mv ∈ Move.all,
      inRectP bQuery.width bQuery.height
        ((into_position 0 bQuery.width).add_vec mv.to_vector) ∧
      ci = ciOf ((into_position 0 bQuery.width).add_vec mv.to_vector) bQuery.width) ∧
    bQuery.possible_moves 0 = bQuery.possible_moves 0 ∧
    bQuery.neighbors 0 = bQuery.neighbors 0) :=
  ⟨⟨rfl, rfl⟩, neighbor_enumeration_spec bQuery bQuery 0 rfl rfl⟩

/-- Modelled from the spec: one agent record of the external snapshot —
id, health, and the ordered body coordinates from head to tail (the head
is the first body coordinate). -/
structure BattleSnake where
  id : String
  health : Nat
  body : List Position
deriving DecidableEq, Repr

/-- Modelled from the spec: the external game snapshot — board
width/height, the agent records, the food and hazard coordinate sets, and
the ruleset name plus its optional hazard-damage-per-turn setting. -/
structure Game where
  rulesetName : String
  settings : Option Int
  width : Nat
  height : Nat
  snakes : List BattleSnake
  food : List Position
  hazards : List Position

/-- Multiplicity at which a square counts as triple-stacked. -/
def TRIPLE_STACK : Nat := 3

/-- Multiplicity at which a square counts as double-stacked. -/
def DOUBLE_STACK : Nat := 2

/-- Worker for uniqList: keep elements not seen before, tracking the seen
set (Itertools::unique keeps the first occurrence of each element). -/
def uniqAux : List Position → List Position → List Position
  | [], _ => []
  | p :: rest, seen =>
    if p ∈ seen then uniqAux rest seen else p :: uniqAux rest (p :: seen)

/-- The distinct elements of a list in order of first occurrence
(Itertools::unique). -/
def uniqList (l : List Position) : List Position := uniqAux l []

lemma uniqAux_subset {p : Position} :
    ∀ {l seen : List Position}, p ∈ uniqAux l seen → p ∈ l
  | [], _, h => by simp [uniqAux] at h
  | q :: rest, seen, h => by
    rw [uniqAux] at h
    split_ifs at h with hq
    · exact List.mem_cons_of_mem _ (uniqAux_subset h)
    · rcases List.mem_cons.mp h with h1 | h1
      · exact h1 ▸ List.mem_cons_self _ _
      · exact List.mem_cons_of_mem _ (uniqAux_subset h1)

lemma uniqList_subset {p : Position} {l : List Position} (h : p ∈ uniqList l) : p ∈ l :=
  uniqAux_subset h

/-- Pointwise update of a function-modelled array. -/
def upd {α : Type} (f : Nat → α) (i : Nat) (v : α) : Nat → α :=
  fun j => if j = i then v else f j

/-- The linear cell index of a coordinate for a stored width, as computed
by the source (y * width + x over the signed coordinates). -/
def cellIdxI (p : Position) (w : Nat) : Int := p.y * (w : Int) + p.x

/-- A bounds-checked write into the cell array: writing outside
[0, BOARD_SIZE) is the out-of-bounds index panic of the source, modelled
as `none`. -/
def setAt (bs : Nat) (cells : Nat → Cell) (ci : Int) (f : Cell → Cell) :
    Option (Nat → Cell) :=
  if 0 ≤ ci ∧ ci < (bs : Int) then some (upd cells ci.toNat (f (cells ci.toNat))) else none

/-- The triple-stack validation of the source: some square of the body has
multiplicity exactly TRIPLE_STACK while the body occupies more than one
distinct square. -/
def tripleStackBad (s : BattleSnake) : Bool :=
  ((uniqList s.body).any (fun p => decide (s.body.count p = TRIPLE_STACK))) &&
  decide ((uniqList s.body).length ≠ 1)

/-- The error condition of the claim (and of the source's four sequential
construction checks): unsupported "wrapped" ruleset, grid larger than the
cell capacity, more snakes than the agent capacity, or a malformed
triple-stacked body. -/
def errCond (bs ms : Nat) (g : Game) : Bool :=
  decide (g.rulesetName = "wrapped") || decide (bs < g.width * g.height) ||
  decide (ms < g.snakes.length) || g.snakes.any tripleStackBad

/-- The body-walking loop of the source for one snake: walk the distinct
body squares in order, classify each square by its multiplicity and
whether it is the head, write the packed cell, and wire the linked index
to the previous square. The head-cannot-be-doubled assertion of the
source is the `none` (panic) outcome; so is an out-of-range write. -/
def processBody (bs sid : Nat) (body : List Position) (hd : Position) (w : Nat) :
    List Position → Int → (Nat → Cell) → Option (Nat → Cell)
  | [], _, cells => some cells
  | p :: rest, nextIdx, cells =>
    let ci : Int := cellIdxI p w
    let cnt := body.count p
    let cv? : Option Cell :=
      if cnt = TRIPLE_STACK then some (Cell.make_triple_stacked_piece sid)
      else if p = hd then
        if cnt = DOUBLE_STACK then none
        else some (Cell.make_snake_head sid (cellIdxI (body.getLastD ⟨0, 0⟩) w).toNat)
      else if cnt = DOUBLE_STACK then some (Cell.make_double_stacked_piece sid nextIdx.toNat)
      else some (Cell.make_body_piece sid nextIdx.toNat)
    match cv? with
    | none => none
    | some cv =>
      match setAt bs cells ci (fun _ => cv) with
      | none => none
      | some cells2 => processBody bs sid body hd w rest ci cells2

/-- The per-snake loop of the source: skip zero-health snakes; otherwise
record health and length (with their u8/u16 casts), record the head index,
and walk the body. Indexing the per-agent arrays with an id at or above
MAX_SNAKES is the array-index panic of the source, modelled as `none`. -/
def processSnakes (bs ms : Nat) (ids : String → Nat) (w : Nat) :
    List BattleSnake → (Nat → Cell) → (Nat → Nat) → (Nat → Int) → (Nat → Nat) →
    Option ((Nat → Cell) × (Nat → Nat) × (Nat → Int) × (Nat → Nat))
  | [], cells, hl, hdv, ln => some (cells, hl, hdv, ln)
  | s :: rest, cells, hl, hdv, ln =>
    if s.health = 0 then processSnakes bs ms ids w rest cells hl hdv ln
    else
      let sid := ids s.id
      if ms ≤ sid then none
      else
        let hl2 := upd hl sid (s.health % 256)
        let ln2 := upd ln sid (s.body.length % 65536)
        let hp := s.body.headD ⟨0, 0⟩
        let hidx : Int := cellIdxI hp w
        let hd2 := if s.body = [] then hdv else upd hdv sid hidx
        match processBody bs sid s.body hp w (uniqList s.body) hidx cells with
        | none => none
        | some cells2 => processSnakes bs ms ids w rest cells2 hl2 hd2 ln2

/-- All grid coordinates, outer loop over y, inner loop over x, as in the
source's flag-stamping loop. -/
def gridList (w h : Nat) : List Position :=
  (List.range h).flatMap (fun y : Nat =>
    (List.range w).map (fun x : Nat => { x := (x : Int), y := (y : Int) }))

/-- The flag-stamping loop of the source: for every grid square, set the
hazard flag and then the food flag when the snapshot lists the square. -/
def stampFold (bs w : Nat) (hz fd : List Position) :
    List Position → (Nat → Cell) → Option (Nat → Cell)
  | [], cells => some cells
  | p :: rest, cells =>
    let ci := cellIdxI p w
    match (if p ∈ hz then setAt bs cells ci Cell.set_hazard else some cells) with
    | none => none
    | some c1 =>
      match (if p ∈ fd then setAt bs c1 ci Cell.set_food else some c1) with
      | none => none
      | some c2 => stampFold bs w hz fd rest c2

/-- Outcome of board construction: a constructed board, a descriptive
recoverable error, or a panic (assertion failure / out-of-bounds index). -/
inductive ConvResult
  | ok (b : CBoard)
  | err (msg : String)
  | crash

/-- True iff the construction returned a recoverable error. -/
def ConvResult.isErr : ConvResult → Bool
  | .err _ => true
  | _ => false

/-- True iff the construction returned a board. -/
def ConvResult.isOk : ConvResult → Bool
  | .ok _ => true
  | _ => false

/-- True iff the construction panicked. -/
def ConvResult.isCrash : ConvResult → Bool
  | .crash => true
  | _ => false

/-- The hazard damage of the constructed board, when one was constructed. -/
def ConvResult.damage? : ConvResult → Option Nat
  | .ok b => some b.hazardDamage
  | _ => none

/-- convert_from_game from the source, for capacity parameters BOARD_SIZE
and MAX_SNAKES and an external id assignment: the four sequential
validations, the per-snake body walk, the flag stamping, and the final
board assembly (hazard damage defaulting to 15 and cast `as u8`; the
stored width cast `as u8`). The actual height field is modelled from the
spec (the core constructor is not in the provided source). -/
def convert_from_game (bs ms : Nat) (ids : String → Nat) (g : Game) : ConvResult :=
  if g.rulesetName = "wrapped" then .err "Wrapped games are not supported"
  else if bs < g.width * g.height then .err "game size does not fit in the given board size"
  else if ms < g.snakes.length then .err "too many snakes"
  else if g.snakes.any tripleStackBad then .err "bad body stack"
  else
    match processSnakes bs ms ids (g.width % 256) g.snakes (fun _ => Cell.empty)
        (fun _ => 0) (fun _ => 0) (fun _ => 0) with
    | none => .crash
    | some (cells, hl, hdv, ln) =>
      match stampFold bs (g.width % 256) g.hazards g.food (gridList g.width g.height) cells with
      | none => .crash
      | some cells2 =>
        .ok { hazardDamage := ((g.settings.getD 15).emod 256).toNat,
              cells := cells2, healths := hl, heads := hdv, lengths := ln,
              width := g.width % 256, height := g.height }

/-- All snakes that will be processed (positive health) have their body
coordinates inside the snapshot's own grid. -/
def bodiesInBounds (g : Game) : Prop :=
  ∀ s ∈ g.snakes, s.health ≠ 0 → ∀ p ∈ s.body, inRectP g.width g.height p

instance (g : Game) : Decidable (bodiesInBounds g) := by
  unfold bodiesInBounds; infer_instance

/-- No snake that will be processed has its head square occurring exactly
DOUBLE_STACK times in its body (the source asserts this). -/
def noDoubleHead (g : Game) : Prop :=
  ∀ s ∈ g.snakes, s.health ≠ 0 → s.body.count (s.body.headD ⟨0, 0⟩) ≠ DOUBLE_STACK

instance (g : Game) : Decidable (noDoubleHead g) := by
  unfold noDoubleHead; infer_instance

/-- The external id assignment maps every snake that will be processed to
a dense index below MAX_SNAKES (as build_snake_id_map does). -/
def idsBounded (ms : Nat) (ids : String → Nat) (g : Game) : Prop :=
  ∀ s ∈ g.snakes, s.health ≠ 0 → ids s.id < ms

instance (ms : Nat) (ids : String → Nat) (g : Game) : Decidable (idsBounded ms ids g) := by
  unfold idsBounded; infer_instance

lemma cellIdx_bound {w h bs : Nat} {p : Position} (hp : inRectP w h p)
    (hwh : w * h ≤ bs) :
    0 ≤ cellIdxI p (w % 256) ∧ cellIdxI p (w % 256) < (bs : Int) := by
  obtain ⟨hx0, hx, hy0, hy⟩ := hp
  unfold cellIdxI
  have hw' : ((w % 256 : Nat) : Int) ≤ (w : Int) := by exact_mod_cast Nat.mod_le w 256
  have hw'0 : (0 : Int) ≤ ((w % 256 : Nat) : Int) := by positivity
  have hwn : (0 : Int) ≤ (w : Int) := by positivity
  constructor
  · have := mul_nonneg hy0 hw'0
    linarith
  · have h1 : p.y * ((w % 256 : Nat) : Int) ≤ p.y * (w : Int) :=
      mul_le_mul_of_nonneg_left hw' hy0
    have h2 : p.y * (w : Int) ≤ ((h : Int) - 1) * (w : Int) :=
      mul_le_mul_of_nonneg_right (by linarith) hwn
    have h3 : ((h : Int) - 1) * (w : Int) = (h : Int) * (w : Int) - (w : Int) := by ring
    have h5 : (h : Int) * (w : Int) ≤ (bs : Int) := by
      have h4 : h * w ≤ bs := by rw [Nat.mul_comm]; exact hwh
      exact_mod_cast h4
    linarith

lemma processBody_some (bs sid : Nat) (body : List Position) (hd : Position) (w : Nat) :
    ∀ (l : List Position) (nx : Int) (cells : Nat → Cell),
    (∀ p ∈ l, 0 ≤ cellIdxI p w ∧ cellIdxI p w < (bs : Int)) →
    (∀ p ∈ l, p = hd → body.count p ≠ DOUBLE_STACK) →
    ∃ c', processBody bs sid body hd w l nx cells = some c' := by
  intro l
  induction l with
  | nil => intro nx cells _ _; exact ⟨cells, rfl⟩
  | cons p rest ih =>
    intro nx cells hin hnd
    have hp := hin p (List.mem_cons_self _ _)
    have hset : setAt bs cells (cellIdxI p w) (fun _ => (if body.count p = TRIPLE_STACK
        then Cell.make_triple_stacked_piece sid
        else if p = hd then
          Cell.make_snake_head sid (cellIdxI (body.getLastD ⟨0, 0⟩) w).toNat
        else if body.count p = DOUBLE_STACK then
          Cell.make_double_stacked_piece sid nx.toNat
        else Cell.make_body_piece sid nx.toNat)) =
        some (upd cells (cellIdxI p w).toNat (if body.count p = TRIPLE_STACK
        then Cell.make_triple_stacked_piece sid
        else if p = hd then
          Cell.make_snake_head sid (cellIdxI (body.getLastD ⟨0, 0⟩) w).toNat
        else if body.count p = DOUBLE_STACK then
          Cell.make_double_stacked_piece sid nx.toNat
        else Cell.make_body_piece sid nx.toNat)) := by
      unfold setAt
      rw [if_pos hp]
    have htail : ∀ q ∈ rest, 0 ≤ cellIdxI q w ∧ cellIdxI q w < (bs : Int) :=
      fun q hq => hin q (List.mem_cons_of_mem _ hq)
    have htail2 : ∀ q ∈ rest, q = hd → body.count q ≠ DOUBLE_STACK :=
      fun q hq => hnd q (List.mem_cons_of_mem _ hq)
    obtain ⟨c', hc'⟩ := ih (cellIdxI p w)
      (upd cells (cellIdxI p w).toNat (if body.count p = TRIPLE_STACK
        then Cell.make_triple_stacked_piece sid
        else if p = hd then
          Cell.make_snake_head sid (cellIdxI (body.getLastD ⟨0, 0⟩) w).toNat
        else if body.count p = DOUBLE_STACK then
          Cell.make_double_stacked_piece sid nx.toNat
        else Cell.make_body_piece sid nx.toNat)) htail htail2
    refine ⟨c', ?_⟩
    rw [processBody]
    by_cases h3 : body.count p = TRIPLE_STACK
    · simp only [h3, if_pos rfl, if_true]
      rw [if_pos h3] at hset hc'
      rw [hset]
      exact hc'
    · by_cases hhd : p = hd
      · have hcnt := hnd p (List.mem_cons_self _ _) hhd
        simp only [if_neg h3, if_pos hhd, if_neg hcnt]
        rw [if_neg h3, if_pos hhd] at hset hc'
        rw [hset]
        exact hc'
      · by_cases h2 : body.count p = DOUBLE_STACK
        · simp only [if_neg h3, if_neg hhd, if_pos h2]
          rw [if_neg h3, if_neg hhd, if_pos h2] at hset hc'
          rw [hset]
          exact hc'
        · simp only [if_neg h3, if_neg hhd, if_neg h2]
          rw [if_neg h3, if_neg hhd, if_neg h2] at hset hc'
          rw [hset]
          exact hc'

lemma processSnakes_some (bs ms : Nat) (ids : String → Nat) (wdt ght : Nat)
    (hbs : wdt * ght ≤ bs) :
    ∀ (sl : List BattleSnake) (cells : Nat → Cell) (hl : Nat → Nat) (hdv : Nat → Int)
      (ln : Nat → Nat),
    (∀ s ∈ sl, s.health ≠ 0 → ids s.id < ms) →
    (∀ s ∈ sl, s.health ≠ 0 → ∀ p ∈ s.body, inRectP wdt ght p) →
    (∀ s ∈ sl, s.health ≠ 0 → s.body.count (s.body.headD ⟨0, 0⟩) ≠ DOUBLE_STACK) →
    ∃ r, processSnakes bs ms ids (wdt % 256) sl cells hl hdv ln = some r := by
  intro sl
  induction sl with
  | nil => intro cells hl hdv ln _ _ _; exact ⟨_, rfl⟩
  | cons s rest ih =>
    intro cells hl hdv ln hids hin hnd
    rw [processSnakes]
    by_cases hh : s.health = 0
    · simp only [if_pos hh]
      exact ih cells hl hdv ln
        (fun t ht => hids t (List.mem_cons_of_mem _ ht))
        (fun t ht => hin t (List.mem_cons_of_mem _ ht))
        (fun t ht => hnd t (List.mem_cons_of_mem _ ht))
    · simp only [if_neg hh]
      have hsid : ¬ ms ≤ ids s.id := by
        have := hids s (List.mem_cons_self _ _) hh
        omega
      rw [if_neg hsid]
      obtain ⟨cells2, hc2⟩ := processBody_some bs (ids s.id) s.body
        (s.body.headD ⟨0, 0⟩) (wdt % 256) (uniqList s.body)
        (cellIdxI (s.body.headD ⟨0, 0⟩) (wdt % 256)) cells
        (fun p hp => cellIdx_bound
          (hin s (List.mem_cons_self _ _) hh p (uniqList_subset hp)) hbs)
        (fun p _ hphd => hphd ▸ hnd s (List.mem_cons_self _ _) hh)
      rw [hc2]
      exact ih cells2 _ _ _
        (fun t ht => hids t (List.mem_cons_of_mem _ ht))
        (fun t ht => hin t (List.mem_cons_of_mem _ ht))
        (fun t ht => hnd t (List.mem_cons_of_mem _ ht))

lemma gridList_mem {w h : Nat} {p : Position} (hp : p ∈ gridList w h) :
    inRectP w h p := by
  unfold gridList at hp
  rw [List.mem_flatMap] at hp
  obtain ⟨y, hy, hmem⟩ := hp
  rw [List.mem_map] at hmem
  obtain ⟨x, hx, rfl⟩ := hmem
  rw [List.mem_range] at hy hx
  refine ⟨Int.natCast_nonneg x, ?_, Int.natCast_nonneg y, ?_⟩
  · show (x : Int) < (w : Int)
    exact_mod_cast hx
  · show (y : Int) < (h : Int)
    exact_mod_cast hy

lemma stampFold_some (bs w : Nat) (hz fd : List Position) :
    ∀ (l : List Position) (cells : Nat → Cell),
    (∀ p ∈ l, 0 ≤ cellIdxI p w ∧ cellIdxI p w < (bs : Int)) →
    ∃ c', stampFold bs w hz fd l cells = some c' := by
  intro l
  induction l with
  | nil => intro cells _; exact ⟨cells, rfl⟩
  | cons p rest ih =>
    intro cells hin
    have hp := hin p (List.mem_cons_self _ _)
    have htail : ∀ q ∈ rest, 0 ≤ cellIdxI q w ∧ cellIdxI q w < (bs : Int) :=
      fun q hq => hin q (List.mem_cons_of_mem _ hq)
    rw [stampFold]
    by_cases h1 : p ∈ hz <;> by_cases h2 : p ∈ fd <;>
      simp only [setAt, h1, h2, hp, if_true, if_false, eq_self_iff_true] <;>
      exact ih _ htail

/-- C2 (amended): convert_from_game returns a descriptive recoverable
error value if and only if the snapshot's ruleset name is "wrapped", or
width * height exceeds BOARD_SIZE, or the snapshot has more snakes than
MAX_SNAKES, or some snake's body contains a square with triple-stack
multiplicity while the body occupies more than one distinct square; on
every other snapshot whose processed snakes' bodies lie within the grid,
whose id assignment stays below MAX_SNAKES, and in which no processed
snake's head square occurs exactly DOUBLE_STACK times in its body, it
returns a constructed board (snapshots violating the last condition make
the converter panic via an internal assertion instead). -/
theorem convert_from_game_error_spec (bs ms : Nat) (ids : String → Nat) (g : Game)
    (hin : bodiesInBounds g) (hnd : noDoubleHead g) (hids : idsBounded ms ids g) :
    ((convert_from_game bs ms ids g).isErr = true ↔ errCond bs ms g = true) ∧
    (errCond bs ms g = false → (convert_from_game bs ms ids g).isOk = true) := by
  by_cases hec : errCond bs ms g = true
  · have herr : (convert_from_game bs ms ids g).isErr = true := by
      unfold convert_from_game
      by_cases h1 : g.rulesetName = "wrapped"
      · rw [if_pos h1]; rfl
      · rw [if_neg h1]
        by_cases h2 : bs < g.width * g.height
        · rw [if_pos h2]; rfl
        · rw [if_neg h2]
          by_cases h3 : ms < g.snakes.length
          · rw [if_pos h3]; rfl
          · rw [if_neg h3]
            have h4 : g.snakes.any tripleStackBad = true := by
              simp only [errCond, Bool.or_eq_true, decide_eq_true_eq] at hec
              rcases hec with ((ha | hb) | hc) | hd
              · exact absurd ha h1
              · exact absurd hb h2
              · exact absurd hc h3
              · exact hd
            rw [if_pos h4]; rfl
    refine ⟨by rw [herr, hec], fun hf => absurd hec (by rw [hf]; simp)⟩
  · have hec' : errCond bs ms g = false := by
      cases h : errCond bs ms g
      · rfl
      · exact absurd h hec
    have hall : ¬ g.rulesetName = "wrapped" ∧ ¬ bs < g.width * g.height ∧
        ¬ ms < g.snakes.length ∧ g.snakes.any tripleStackBad = false := by
      simp only [errCond, Bool.or_eq_false_iff, decide_eq_false_iff_not] at hec'
      exact ⟨hec'.1.1.1, hec'.1.1.2, hec'.1.2, hec'.2⟩
    obtain ⟨h1, h2, h3, h4⟩ := hall
    have hok : (convert_from_game bs ms ids g).isOk = true := by
      unfold convert_from_game
      rw [if_neg h1, if_neg h2, if_neg h3,
        if_neg (by rw [h4]; simp : ¬ g.snakes.any tripleStackBad = true)]
      obtain ⟨⟨cells2, hl2, hd2, ln2⟩, hps⟩ := processSnakes_some bs ms ids g.width g.height
        (by omega) g.snakes (fun _ => Cell.empty) (fun _ => 0) (fun _ => 0) (fun _ => 0)
        hids hin hnd
      obtain ⟨cells3, hsf⟩ := stampFold_some bs (g.width % 256) g.hazards g.food
        (gridList g.width g.height) cells2
        (fun p hp => cellIdx_bound (gridList_mem hp) (by omega))
      rw [hps]
      dsimp only
      rw [hsf]
      rfl
    have herr : (convert_from_game bs ms ids g).isErr = false := by
      cases hcv : convert_from_game bs ms ids g with
      | ok b => rfl
      | err m => rw [hcv] at hok; exact absurd hok (by simp [ConvResult.isOk])
      | crash => rw [hcv] at hok; exact absurd hok (by simp [ConvResult.isOk])
    exact ⟨by rw [herr, hec'], fun _ => hok⟩

/-- A snapshot passing all four construction checks whose only snake has
its head square exactly twice in its body. -/
def gC2bad : Game :=
  { rulesetName := "standard", settings := none, width := 3, height := 3,
    snakes := [{ id := "a", health := 100, body := [⟨0, 0⟩, ⟨0, 0⟩] }],
    food := [], hazards := [] }

/-- Counterexample to C2 as stated: a snapshot satisfying none of the four
error conditions on which convert_from_game panics (the source's
head-cannot-be-doubled assertion) instead of returning a constructed
board. -/
theorem convert_from_game_panic_counterexample :
    errCond 49 4 gC2bad = false ∧
    (convert_from_game 49 4 (fun _ => 0) gC2bad).isCrash = true ∧
    (convert_from_game 49 4 (fun _ => 0) gC2bad).isOk = false := by decide

/-- A well-formed snapshot accepted by convert_from_game. -/
def gC2ok : Game :=
  { rulesetName := "standard", settings := none, width := 3, height := 3,
    snakes := [{ id := "a", health := 90, body := [⟨1, 1⟩, ⟨1, 0⟩] }],
    food := [⟨0, 0⟩], hazards := [⟨2, 2⟩] }

/-- Witness for C2: the amended theorem applied at a concrete snapshot. -/
theorem convert_from_game_error_spec_witness :
    (bodiesInBounds gC2ok ∧ noDoubleHead gC2ok ∧ idsBounded 4 (fun _ => 0) gC2ok) ∧
    (((convert_from_game 49 4 (fun _ => 0) gC2ok).isErr = true ↔
        errCond 49 4 gC2ok = true) ∧
      (errCond 49 4 gC2ok = false →
        (convert_from_game 49 4 (fun _ => 0) gC2ok).isOk = true)) :=
  ⟨⟨by decide, by decide, by decide⟩,
    convert_from_game_error_spec 49 4 (fun _ => 0) gC2ok (by decide) (by decide) (by decide)⟩

/-- C9 (amended): a board accepted by convert_from_game carries hazard
damage 15 when the snapshot's ruleset settings are absent, and the
snapshot's hazard_damage_per_turn truncated to u8 (taken modulo 256,
matching the source's `as u8` cast) when they are present. -/
theorem convert_hazard_damage_spec (bs ms : Nat) (ids : String → Nat) (g : Game)
    (h : (convert_from_game bs ms ids g).isOk = true) :
    (g.settings = none → (convert_from_game bs ms ids g).damage? = some 15) ∧
    (∀ v : Int, g.settings = some v →
      (convert_from_game bs ms ids g).damage? = some ((v.emod 256).toNat)) := by
  have key : ∀ b : CBoard, convert_from_game bs ms ids g = ConvResult.ok b →
      b.hazardDamage = ((g.settings.getD 15).emod 256).toNat := by
    intro b hb
    unfold convert_from_game at hb
    split_ifs at hb
    split at hb
    · exact ConvResult.noConfusion hb
    · split at hb
      · exact ConvResult.noConfusion hb
      · injection hb with hb2
        rw [← hb2]
  constructor
  · intro hs
    cases hcv : convert_from_game bs ms ids g with
    | ok b =>
      have hkey := key b hcv
      show some b.hazardDamage = some 15
      rw [hkey, hs]
      decide
    | err m =>
      rw [hcv] at h
      simp [ConvResult.isOk] at h
    | crash =>
      rw [hcv] at h
      simp [ConvResult.isOk] at h
  · intro v hv
    cases hcv : convert_from_game bs ms ids g with
    | ok b =>
      have hkey := key b hcv
      show some b.hazardDamage = some ((v.emod 256).toNat)
      rw [hkey, hv]
      rfl
    | err m =>
      rw [hcv] at h
      simp [ConvResult.isOk] at h
    | crash =>
      rw [hcv] at h
      simp [ConvResult.isOk] at h

/-- A snapshot accepted by convert_from_game whose hazard damage setting
exceeds the u8 range. -/
def gC9 : Game :=
  { rulesetName := "standard", settings := some 300, width := 3, height := 3,
    snakes := [], food := [], hazards := [] }

/-- Counterexample to C9 as stated: an accepted snapshot with
hazard_damage_per_turn = 300 whose constructed board stores 44 (the u8
truncation), not 300. -/
theorem convert_hazard_damage_counterexample :
    (convert_from_game 49 4 (fun _ => 0) gC9).isOk = true ∧
    (convert_from_game 49 4 (fun _ => 0) gC9).damage? = some 44 ∧
    ¬ (convert_from_game 49 4 (fun _ => 0) gC9).damage? = some 300 := by decide

/-- A snapshot with an in-range hazard damage setting. -/
def gC9w : Game :=
  { rulesetName := "standard", settings := some 30, width := 3, height := 3,
    snakes := [], food := [], hazards := [] }

/-- Witness for C9: the amended theorem applied at a concrete snapshot. -/
theorem convert_hazard_damage_spec_witness :
    (convert_from_game 49 4 (fun _ => 0) gC9w).isOk = true ∧
    ((gC9w.settings = none →
        (convert_from_game 49 4 (fun _ => 0) gC9w).damage? = some 15) ∧
      (∀ v : Int, gC9w.settings = some v →
        (convert_from_game 49 4 (fun _ => 0) gC9w).damage? = some ((v.emod 256).toNat))) :=
  ⟨by decide, convert_hazard_damage_spec 49 4 (fun _ => 0) gC9w (by decide)⟩

/-- The capacity tiers of the fixed ascending family, identified by the
variant tag of BestCellBoard. -/
inductive TierTag
  | tiny
  | standard
  | largestU8
  | large
  | silly
deriving DecidableEq, Repr

/-- Maximum board dimension of a tier (7, 11, 15, 25, 50). -/
def tierDim : TierTag → Nat
  | .tiny => 7
  | .standard => 11
  | .largestU8 => 15
  | .large => 25
  | .silly => 50

/-- Maximum agent count of a tier (4, 4, 8, 8, 16). -/
def tierSnakes : TierTag → Nat
  | .tiny => 4
  | .standard => 4
  | .largestU8 => 8
  | .large => 8
  | .silly => 16

/-- Cell capacity BOARD_SIZE of a tier (7*7, 11*11, 15*15, 25*25, 50*50). -/
def tierBS : TierTag → Nat
  | .tiny => 7 * 7
  | .standard => 11 * 11
  | .largestU8 => 15 * 15
  | .large => 25 * 25
  | .silly => 50 * 50

/-- The fixed ascending list of capacity tiers. -/
def tierList : List TierTag := [.tiny, .standard, .largestU8, .large, .silly]

/-- A tier contains a game iff its max dimension bounds both the width and
the height and its max agent count bounds the agent count. -/
def tierFits (t : TierTag) (w h n : Nat) : Bool :=
  decide (w ≤ tierDim t ∧ h ≤ tierDim t ∧ n ≤ tierSnakes t)

/-- Definition following the claim's words, for comparison with the
source: the smallest tier of the fixed ascending list whose max dimension
and max agent count contain the game's width, height and agent count. -/
def specTier (w h n : Nat) : Option TierTag :=
  (tierList.filter (fun t => tierFits t w h n)).head?

/-- Outcome of to_best_cell_board: a board wrapped in its tier tag, a
recoverable construction error, or a panic. -/
inductive BestResult
  | ok (t : TierTag) (b : CBoard)
  | err (msg : String)
  | crash

/-- The chosen tier tag, when a board was produced. -/
def BestResult.tag? : BestResult → Option TierTag
  | .ok t _ => some t
  | _ => none

/-- True iff to_best_cell_board returned a recoverable error. -/
def BestResult.isErrB : BestResult → Bool
  | .err _ => true
  | _ => false

/-- Wrap a construction outcome in a tier tag. -/
def liftConv (t : TierTag) : ConvResult → BestResult
  | .ok b => .ok t b
  | .err m => .err m
  | .crash => .crash

/-- Modelled from the spec: the externally supplied bijection from native
snake id to a dense small index — the position of the snake in the
snapshot's snake list (build_snake_id_map is not in the provided source). -/
def build_snake_id_map (g : Game) : String → Nat :=
  fun sidStr => g.snakes.findIdx (fun s => s.id == sidStr)

/-- to_best_cell_board from the source: dimension is the game's WIDTH;
the if-chain tries the five tiers in ascending order on (dimension,
number of snakes) and converts at the first that fits, propagating any
construction error; if no tier fits it panics. -/
def to_best_cell_board (g : Game) : BestResult :=
  if g.width ≤ 7 ∧ g.snakes.length ≤ 4 then
    liftConv .tiny (convert_from_game (7 * 7) 4 (build_snake_id_map g) g)
  else if g.width ≤ 11 ∧ g.snakes.length ≤ 4 then
    liftConv .standard (convert_from_game (11 * 11) 4 (build_snake_id_map g) g)
  else if g.width ≤ 15 ∧ g.snakes.length ≤ 8 then
    liftConv .largestU8 (convert_from_game (15 * 15) 8 (build_snake_id_map g) g)
  else if g.width ≤ 25 ∧ g.snakes.length ≤ 8 then
    liftConv .large (convert_from_game (25 * 25) 8 (build_snake_id_map g) g)
  else if g.width ≤ 50 ∧ g.snakes.length ≤ 16 then
    liftConv .silly (convert_from_game (50 * 50) 16 (build_snake_id_map g) g)
  else .crash

lemma specTier_cases (w h n : Nat) :
    specTier w h n =
      if tierFits TierTag.tiny w h n = true then some TierTag.tiny
      else if tierFits TierTag.standard w h n = true then some TierTag.standard
      else if tierFits TierTag.largestU8 w h n = true then some TierTag.largestU8
      else if tierFits TierTag.large w h n = true then some TierTag.large
      else if tierFits TierTag.silly w h n = true then some TierTag.silly
      else none := by
  unfold specTier tierList
  simp only [List.filter_cons, List.filter_nil]
  split_ifs <;> simp_all

/-- C1 (amended): to_best_cell_board selects the smallest capacity tier of
the fixed ascending list (7x7/4, 11x11/4, 15x15/8, 25x25/8, 50x50/16)
whose max dimension contains the game's WIDTH (the height is not consulted
by the selection) and whose max agent count contains the agent count; when
conversion at that tier succeeds, the result is the constructed board
wrapped in the tag of that tier. In particular a 7x7 4-agent snapshot
yields the Tiny tier and a 12x12 snapshot yields LargestU8, a tier larger
than Standard. -/
theorem to_best_cell_board_spec (g : Game) (t : TierTag)
    (hsel : specTier g.width g.width g.snakes.length = some t)
    (hok : (convert_from_game (tierBS t) (tierSnakes t)
      (build_snake_id_map g) g).isOk = true) :
    (to_best_cell_board g).tag? = some t := by
  rw [specTier_cases] at hsel
  simp only [tierFits, tierDim, tierSnakes, decide_eq_true_eq] at hsel
  split_ifs at hsel with h1 h2 h3 h4 h5
  · injection hsel with ht
    subst ht
    have hok' : (convert_from_game (7 * 7) 4 (build_snake_id_map g) g).isOk = true := hok
    unfold to_best_cell_board
    rw [if_pos ⟨h1.1, h1.2.2⟩]
    cases hcv : convert_from_game (7 * 7) 4 (build_snake_id_map g) g with
    | ok b => rfl
    | err m => rw [hcv] at hok'; simp [ConvResult.isOk] at hok'
    | crash => rw [hcv] at hok'; simp [ConvResult.isOk] at hok'
  · injection hsel with ht
    subst ht
    have hok' : (convert_from_game (11 * 11) 4 (build_snake_id_map g) g).isOk = true := hok
    unfold to_best_cell_board
    rw [if_neg (fun hc => h1 ⟨hc.1, hc.1, hc.2⟩), if_pos ⟨h2.1, h2.2.2⟩]
    cases hcv : convert_from_game (11 * 11) 4 (build_snake_id_map g) g with
    | ok b => rfl
    | err m => rw [hcv] at hok'; simp [ConvResult.isOk] at hok'
    | crash => rw [hcv] at hok'; simp [ConvResult.isOk] at hok'
  · injection hsel with ht
    subst ht
    have hok' : (convert_from_game (15 * 15) 8 (build_snake_id_map g) g).isOk = true := hok
    unfold to_best_cell_board
    rw [if_neg (fun hc => h1 ⟨hc.1, hc.1, hc.2⟩),
      if_neg (fun hc => h2 ⟨hc.1, hc.1, hc.2⟩), if_pos ⟨h3.1, h3.2.2⟩]
    cases hcv : convert_from_game (15 * 15) 8 (build_snake_id_map g) g with
    | ok b => rfl
    | err m => rw [hcv] at hok'; simp [ConvResult.isOk] at hok'
    | crash => rw [hcv] at hok'; simp [ConvResult.isOk] at hok'
  · injection hsel with ht
    subst ht
    have hok' : (convert_from_game (25 * 25) 8 (build_snake_id_map g) g).isOk = true := hok
    unfold to_best_cell_board
    rw [if_neg (fun hc => h1 ⟨hc.1, hc.1, hc.2⟩),
      if_neg (fun hc => h2 ⟨hc.1, hc.1, hc.2⟩),
      if_neg (fun hc => h3 ⟨hc.1, hc.1, hc.2⟩), if_pos ⟨h4.1, h4.2.2⟩]
    cases hcv : convert_from_game (25 * 25) 8 (build_snake_id_map g) g with
    | ok b => rfl
    | err m => rw [hcv] at hok'; simp [ConvResult.isOk] at hok'
    | crash => rw [hcv] at hok'; simp [ConvResult.isOk] at hok'
  · injection hsel with ht
    subst ht
    have hok' : (convert_from_game (50 * 50) 16 (build_snake_id_map g) g).isOk = true := hok
    unfold to_best_cell_board
    rw [if_neg (fun hc => h1 ⟨hc.1, hc.1, hc.2⟩),
      if_neg (fun hc => h2 ⟨hc.1, hc.1, hc.2⟩),
      if_neg (fun hc => h3 ⟨hc.1, hc.1, hc.2⟩),
      if_neg (fun hc => h4 ⟨hc.1, hc.1, hc.2⟩), if_pos ⟨h5.1, h5.2.2⟩]
    cases hcv : convert_from_game (50 * 50) 16 (build_snake_id_map g) g with
    | ok b => rfl
    | err m => rw [hcv] at hok'; simp [ConvResult.isOk] at hok'
    | crash => rw [hcv] at hok'; simp [ConvResult.isOk] at hok'

/-- A non-square snapshot: width 7 fits the Tiny tier but height 12 does
not (only LargestU8 contains both dimensions). -/
def gC1 : Game :=
  { rulesetName := "standard", settings := none, width := 7, height := 12,
    snakes := [], food := [], hazards := [] }

/-- Counterexample to C1 as stated: for a 7-wide, 12-tall snapshot the
smallest tier containing width, height and agent count is LargestU8, but
to_best_cell_board (which selects on the width alone) tries Tiny, whose
conversion rejects the 84-cell grid, and returns an error instead of a
board wrapped in the LargestU8 tag. -/
theorem to_best_cell_board_counterexample :
    specTier gC1.width gC1.height gC1.snakes.length = some TierTag.largestU8 ∧
    (to_best_cell_board gC1).isErrB = true ∧
    (to_best_cell_board gC1).tag? = none := by decide

/-- A 7x7 snapshot with four freshly spawned (triple-stacked) snakes. -/
def gTiny : Game :=
  { rulesetName := "standard", settings := none, width := 7, height := 7,
    snakes := [
      { id := "a", health := 100, body := [⟨0, 0⟩, ⟨0, 0⟩, ⟨0, 0⟩] },
      { id := "b", health := 100, body := [⟨6, 6⟩, ⟨6, 6⟩, ⟨6, 6⟩] },
      { id := "c", health := 100, body := [⟨0, 6⟩, ⟨0, 6⟩, ⟨0, 6⟩] },
      { id := "d", health := 100, body := [⟨6, 0⟩, ⟨6, 0⟩, ⟨6, 0⟩] }],
    food := [⟨3, 3⟩], hazards := [] }

/-- A 12x12 snapshot with one snake. -/
def g12 : Game :=
  { rulesetName := "standard", settings := none, width := 12, height := 12,
    snakes := [{ id := "a", health := 100, body := [⟨5, 5⟩, ⟨5, 4⟩, ⟨5, 3⟩] }],
    food := [], hazards := [] }

/-- Witness for C1: the amended theorem applied at the claim's two
concrete scenarios — a 7x7 4-agent snapshot yields Tiny, a 12x12 snapshot
yields LargestU8. -/
theorem to_best_cell_board_spec_witness :
    (specTier gTiny.width gTiny.width gTiny.snakes.length = some TierTag.tiny ∧
      (convert_from_game (tierBS TierTag.tiny) (tierSnakes TierTag.tiny)
        (build_snake_id_map gTiny) gTiny).isOk = true ∧
      (to_best_cell_board gTiny).tag? = some TierTag.tiny) ∧
    (specTier g12.width g12.width g12.snakes.length = some TierTag.largestU8 ∧
      (convert_from_game (tierBS TierTag.largestU8) (tierSnakes TierTag.largestU8)
        (build_snake_id_map g12) g12).isOk = true ∧
      (to_best_cell_board g12).tag? = some TierTag.largestU8) :=
  ⟨⟨by decide, by decide,
      to_best_cell_board_spec gTiny TierTag.tiny (by decide) (by decide)⟩,
    ⟨by decide, by decide,
      to_best_cell_board_spec g12 TierTag.largestU8 (by decide) (by decide)⟩⟩

/-- Modelled from the spec: one agent of the simulated board — health and
the ordered body squares from head to tail. -/
structure Agent where
  health : Nat
  body : List Position
deriving DecidableEq, Repr

/-- Modelled from the spec: the board state consumed by the simulator —
actual width and height, configured hazard damage, food and hazard
coordinate sets, and the per-agent records indexed by dense agent id. -/
structure SimBoard where
  width : Nat
  height : Nat
  hazardDamage : Nat
  food : List Position
  hazards : List Position
  agents : List Agent
deriving DecidableEq, Repr

/-- Modelled from the spec: the maximum (full) health value, restored by
eating. -/
def maxHealth : Nat := 100

/-- Number of agent slots of a board. -/
def nAg (b : SimBoard) : Nat := b.agents.length

/-- The agent record of slot i (a zero-health empty record off the end). -/
def agentAt (b : SimBoard) (i : Nat) : Agent := b.agents.getD i ⟨0, []⟩

/-- The current head square of agent i (phase 1 input). -/
def headPos (b : SimBoard) (i : Nat) : Position := (agentAt b i).body.headD ⟨0, 0⟩

/-- Phase 1: the candidate new head of agent i under the move combination. -/
def newHead (b : SimBoard) (ms : Nat → Move) (i : Nat) : Position :=
  (headPos b i).add_vec (ms i).to_vector

/-- Agent i is alive before the tick. -/
def alivePre (b : SimBoard) (i : Nat) : Prop := 0 < (agentAt b i).health

instance (b : SimBoard) (i : Nat) : Decidable (alivePre b i) := by
  unfold alivePre; infer_instance

/-- Phase 2: agent i is alive and its new head stays on the grid. -/
def geomOK (b : SimBoard) (ms : Nat → Move) (i : Nat) : Prop :=
  alivePre b i ∧ inRectP b.width b.height (newHead b ms i)

instance (b : SimBoard) (ms : Nat → Move) (i : Nat) : Decidable (geomOK b ms i) := by
  unfold geomOK; infer_instance

/-- Phase 4: agent i consumes food this tick. -/
def ate (b : SimBoard) (ms : Nat → Move) (i : Nat) : Prop :=
  geomOK b ms i ∧ newHead b ms i ∈ b.food

instance (b : SimBoard) (ms : Nat → Move) (i : Nat) : Decidable (ate b ms i) := by
  unfold ate; infer_instance

/-- The hazard damage applied to agent i this tick. -/
def hzDmg (b : SimBoard) (ms : Nat → Move) (i : Nat) : Nat :=
  if newHead b ms i ∈ b.hazards then b.hazardDamage else 0

/-- Phase 5: the health of agent i after the tick — full if it ate,
otherwise decremented by 1 plus hazard damage. -/
def newHealth (b : SimBoard) (ms : Nat → Move) (i : Nat) : Nat :=
  if ate b ms i then maxHealth else (agentAt b i).health - 1 - hzDmg b ms i

/-- Agent i survives phases 2 and 5 (geometry and starvation). -/
def mover (b : SimBoard) (ms : Nat → Move) (i : Nat) : Prop :=
  geomOK b ms i ∧ 0 < newHealth b ms i

instance (b : SimBoard) (ms : Nat → Move) (i : Nat) : Decidable (mover b ms i) := by
  unfold mover; infer_instance

/-- Phase 3: the advanced body of agent i — the new head prepended, the
tail vacated unless the agent ate. -/
def newBody (b : SimBoard) (ms : Nat → Move) (i : Nat) : List Position :=
  newHead b ms i ::
    (if ate b ms i then (agentAt b i).body else (agentAt b i).body.dropLast)

/-- The resulting length of agent i (after growth). -/
def resLen (b : SimBoard) (ms : Nat → Move) (i : Nat) : Nat := (newBody b ms i).length

/-- Phase 6a: agent i survives phases 2 and 5 and its new head does not
land on a post-advance non-head body segment of any agent that survived
phases 2 and 5. -/
def bodyClear (b : SimBoard) (ms : Nat → Move) (i : Nat) : Prop :=
  mover b ms i ∧
    ∀ j < nAg b, mover b ms j → newHead b ms i ∉ (newBody b ms j).tail

instance (b : SimBoard) (ms : Nat → Move) (i : Nat) : Decidable (bodyClear b ms i) := by
  unfold bodyClear; infer_instance

/-- Phase 6b: agent i survives the whole tick — it is body-clear and
strictly longer (by resulting length) than every other body-clear agent
whose new head lands on the same square. -/
def survives (b : SimBoard) (ms : Nat → Move) (i : Nat) : Prop :=
  bodyClear b ms i ∧
    ∀ j < nAg b, bodyClear b ms j → j ≠ i → newHead b ms j = newHead b ms i →
      resLen b ms j < resLen b ms i

instance (b : SimBoard) (ms : Nat → Move) (i : Nat) : Decidable (survives b ms i) := by
  unfold survives; infer_instance

/-- Phase 7: the committed record of agent i — updated health and body
for survivors, zeroed out for eliminated agents. -/
def tickAgent (b : SimBoard) (ms : Nat → Move) (i : Nat) : Agent :=
  if survives b ms i then ⟨newHealth b ms i, newBody b ms i⟩ else ⟨0, []⟩

/-- Modelled from the spec: one tick of the simulator for one move
combination (simulate_with_moves delegates to the core, which is not in
the provided source): compute new heads, eliminate by geometry, advance
bodies, consume food, update health, resolve body and head-to-head
collisions, and commit. -/
def simulate_tick (b : SimBoard) (ms : Nat → Move) : SimBoard :=
  { b with
    food := b.food.filter
      (fun p => ! decide (∃ i < nAg b, mover b ms i ∧ newHead b ms i = p)),
    agents := (List.range (nAg b)).map (tickAgent b ms) }

/-- Agent i is alive on a board. -/
def aliveAfter (b : SimBoard) (i : Nat) : Prop := 0 < (agentAt b i).health

instance (b : SimBoard) (i : Nat) : Decidable (aliveAfter b i) := by
  unfold aliveAfter; infer_instance

/-- The number of live agents of a board. -/
def countAlive (b : SimBoard) : Nat :=
  (b.agents.filter (fun a => decide (0 < a.health))).length

/-- A valid board: every live agent has a nonempty body (the spec's
invariant that a live agent has a head). -/
def validB (b : SimBoard) : Prop :=
  ∀ i < nAg b, alivePre b i → (agentAt b i).body ≠ []

instance (b : SimBoard) : Decidable (validB b) := by
  unfold validB; infer_instance

lemma range_map_getD {α : Type} : ∀ (l : List α) (d : α),
    (List.range l.length).map (fun i => l.getD i d) = l
  | [], _ => rfl
  | a :: l, d => by
    rw [List.length_cons, List.range_succ_eq_map, List.map_cons, List.map_map]
    have h1 : ((fun i => (a :: l).getD i d) ∘ Nat.succ) = fun i => l.getD i d := by
      funext i; rfl
    rw [h1, range_map_getD l d]
    rfl

lemma countP_eq_countP_range {α : Type} (l : List α) (p : α → Bool) (d : α) :
    l.countP p = (List.range l.length).countP (fun i => p (l.getD i d)) := by
  conv_lhs => rw [← range_map_getD l d]
  rw [List.countP_map]
  rfl

lemma countP_congr_local {α : Type} {p q : α → Bool} :
    ∀ {l : List α}, (∀ a ∈ l, p a = q a) → l.countP p = l.countP q
  | [], _ => rfl
  | a :: l, h => by
    rw [List.countP_cons, List.countP_cons, h a (List.mem_cons_self _ _),
      countP_congr_local (fun x hx => h x (List.mem_cons_of_mem _ hx))]

lemma countP_le_of_imp {α : Type} {p q : α → Bool} :
    ∀ {l : List α}, (∀ a ∈ l, p a = true → q a = true) → l.countP p ≤ l.countP q
  | [], _ => le_refl _
  | a :: l, h => by
    rw [List.countP_cons, List.countP_cons]
    have h1 := countP_le_of_imp (fun x hx => h x (List.mem_cons_of_mem _ hx))
    by_cases hp : p a = true
    · rw [hp, h a (List.mem_cons_self _ _) hp]
      omega
    · have : p a = false := by revert hp; cases p a <;> simp
      rw [this]
      cases q a <;> simp <;> omega

lemma agentAt_tick (b : SimBoard) (ms : Nat → Move) (i : Nat) (hi : i < nAg b) :
    agentAt (simulate_tick b ms) i = tickAgent b ms i := by
  unfold agentAt simulate_tick
  dsimp only
  rw [List.getD_eq_getElem?_getD, List.getElem?_map, List.getElem?_range hi]
  rfl

lemma aliveAfter_tick_iff (b : SimBoard) (ms : Nat → Move) (i : Nat) (hi : i < nAg b) :
    aliveAfter (simulate_tick b ms) i ↔ survives b ms i := by
  unfold aliveAfter
  rw [agentAt_tick b ms i hi]
  unfold tickAgent
  split_ifs with hs
  · exact ⟨fun _ => hs, fun _ => hs.1.1.2⟩
  · exact ⟨fun h0 => absurd h0 (by decide), fun hsv => absurd hsv hs⟩

/-- C4: for every valid board and move combination, the number of live
agents in the resulting board is at most the number of live agents before
the tick; and every agent that survives the tick without eating food has
its body length unchanged and its health decreased by exactly 1, plus the
board's configured hazard damage if its new head square is hazardous. -/
theorem simulate_tick_conservation (b : SimBoard) (ms : Nat → Move) (hv : validB b) :
    countAlive (simulate_tick b ms) ≤ countAlive b ∧
    ∀ i < nAg b, aliveAfter (simulate_tick b ms) i → ¬ ate b ms i →
      ((agentAt (simulate_tick b ms) i).body.length = (agentAt b i).body.length ∧
        (agentAt b i).health =
          (agentAt (simulate_tick b ms) i).health + 1 + hzDmg b ms i) := by
  constructor
  · have h1 : countAlive (simulate_tick b ms) =
        (List.range (nAg b)).countP (fun i => decide (survives b ms i)) := by
      unfold countAlive simulate_tick
      dsimp only
      rw [← List.countP_eq_length_filter, List.countP_map]
      apply countP_congr_local
      intro i _
      show decide (0 < (tickAgent b ms i).health) = decide (survives b ms i)
      by_cases hs : survives b ms i
      · unfold tickAgent
        rw [if_pos hs, decide_eq_true hs.1.1.2, decide_eq_true hs]
      · unfold tickAgent
        rw [if_neg hs, decide_eq_false hs]
        decide
    have h2 : countAlive b =
        (List.range (nAg b)).countP (fun i => decide (0 < (agentAt b i).health)) := by
      unfold countAlive nAg agentAt
      rw [← List.countP_eq_length_filter]
      exact countP_eq_countP_range b.agents (fun a => decide (0 < a.health)) ⟨0, []⟩
    rw [h1, h2]
    apply countP_le_of_imp
    intro i _ hp
    have hs : survives b ms i := of_decide_eq_true hp
    exact decide_eq_true hs.1.1.1.1
  · intro i hi halive hate
    have hs : survives b ms i := (aliveAfter_tick_iff b ms i hi).mp halive
    have hbody : (agentAt b i).body ≠ [] := hv i hi hs.1.1.1.1
    rw [agentAt_tick b ms i hi]
    unfold tickAgent
    rw [if_pos hs]
    constructor
    · show (newBody b ms i).length = _
      unfold newBody
      rw [if_neg hate]
      have hlen : (agentAt b i).body.length ≠ 0 := by
        intro h0
        exact hbody (List.length_eq_zero.mp h0)
      simp only [List.length_cons, List.length_dropLast]
      omega
    · show (agentAt b i).health = newHealth b ms i + 1 + hzDmg b ms i
      have hpos : 0 < newHealth b ms i := hs.1.1.2
      unfold newHealth at hpos ⊢
      rw [if_neg hate] at hpos ⊢
      omega

/-- C5: for every valid board and move combination, an agent that survives
the tick and whose new head lands on a food square has its health set to
the maximum (full) value rather than decremented, and its body length
increased by exactly 1. -/
theorem simulate_tick_eating (b : SimBoard) (ms : Nat → Move) (_hvb : validB b) :
    ∀ i < nAg b, aliveAfter (simulate_tick b ms) i → ate b ms i →
      ((agentAt (simulate_tick b ms) i).health = maxHealth ∧
        (agentAt (simulate_tick b ms) i).body.length =
          (agentAt b i).body.length + 1) := by
  intro i hi halive hate
  have hs : survives b ms i := (aliveAfter_tick_iff b ms i hi).mp halive
  rw [agentAt_tick b ms i hi]
  unfold tickAgent
  rw [if_pos hs]
  constructor
  · show newHealth b ms i = maxHealth
    unfold newHealth
    rw [if_pos hate]
  · show (newBody b ms i).length = _
    unfold newBody
    rw [if_pos hate]
    simp

/-- C3: for every valid board and move combination in which two or more
body-clear agents' new heads land on the same square, an agent whose new
head lands there is alive in the resulting board exactly when its
resulting length is strictly greater than that of every other body-clear
contender of the square; in particular if another contender matches or
exceeds its resulting length (a shared maximum) it is eliminated. -/
theorem simulate_tick_head_to_head (b : SimBoard) (ms : Nat → Move) (sq : Position)
    (i : Nat) (_hvb : validB b)
    (_hcont : ∃ j < nAg b, ∃ k < nAg b, j ≠ k ∧ bodyClear b ms j ∧ bodyClear b ms k ∧
      newHead b ms j = sq ∧ newHead b ms k = sq)
    (hi : i < nAg b) (hbc : bodyClear b ms i) (hsq : newHead b ms i = sq) :
    (aliveAfter (simulate_tick b ms) i ↔
      ∀ j < nAg b, bodyClear b ms j → newHead b ms j = sq → j ≠ i →
        resLen b ms j < resLen b ms i) ∧
    ((∃ j < nAg b, bodyClear b ms j ∧ newHead b ms j = sq ∧ j ≠ i ∧
        resLen b ms i ≤ resLen b ms j) → ¬ aliveAfter (simulate_tick b ms) i) := by
  have hiff := aliveAfter_tick_iff b ms i hi
  constructor
  · rw [hiff]
    unfold survives
    constructor
    · rintro ⟨_, hall⟩ j hj hbcj hsqj hne
      exact hall j hj hbcj hne (by rw [hsqj, hsq])
    · intro hall
      exact ⟨hbc, fun j hj hbcj hne heq => hall j hj hbcj (by rw [heq, hsq]) hne⟩
  · rintro ⟨j, hj, hbcj, hsqj, hne, hlen⟩ halive
    have hs := hiff.mp halive
    have hlt := hs.2 j hj hbcj hne (by rw [hsqj, hsq])
    omega

/-- A 5x5 board with two length-2 agents facing each other. -/
def bSim : SimBoard :=
  { width := 5, height := 5, hazardDamage := 3, food := [], hazards := [⟨1, 2⟩],
    agents := [⟨10, [⟨1, 1⟩, ⟨1, 0⟩]⟩, ⟨10, [⟨3, 1⟩, ⟨3, 0⟩]⟩] }

/-- Moves sending both agents of bSim onto the shared square (2, 1). -/
def msC3 : Nat → Move := fun i => if i = 0 then .right else .left

/-- Witness for C3: the theorem applied at bSim with both agents meeting
head-to-head at (2, 1) with equal resulting lengths. -/
theorem simulate_tick_head_to_head_witness :
    (validB bSim ∧
      (∃ j < nAg bSim, ∃ k < nAg bSim, j ≠ k ∧ bodyClear bSim msC3 j ∧
        bodyClear bSim msC3 k ∧ newHead bSim msC3 j = ⟨2, 1⟩ ∧
        newHead bSim msC3 k = ⟨2, 1⟩) ∧
      0 < nAg bSim ∧ bodyClear bSim msC3 0 ∧ newHead bSim msC3 0 = ⟨2, 1⟩) ∧
    ((aliveAfter (simulate_tick bSim msC3) 0 ↔
        ∀ j < nAg bSim, bodyClear bSim msC3 j → newHead bSim msC3 j = ⟨2, 1⟩ →
          j ≠ 0 → resLen bSim msC3 j < resLen bSim msC3 0) ∧
      ((∃ j < nAg bSim, bodyClear bSim msC3 j ∧ newHead bSim msC3 j = ⟨2, 1⟩ ∧
          j ≠ 0 ∧ resLen bSim msC3 0 ≤ resLen bSim msC3 j) →
        ¬ aliveAfter (simulate_tick bSim msC3) 0)) :=
  ⟨⟨by decide, by decide, by decide, by decide, by decide⟩,
    simulate_tick_head_to_head bSim msC3 ⟨2, 1⟩ 0 (by decide) (by decide) (by decide)
      (by decide) (by decide)⟩

/-- Moves sending both agents of bSim straight up (no collisions; agent 0
steps onto the hazard square (1, 2)). -/
def msC4 : Nat → Move := fun _ => .up

/-- Witness for C4: the theorem applied at bSim with both agents moving
up. -/
theorem simulate_tick_conservation_witness :
    validB bSim ∧
    (countAlive (simulate_tick bSim msC4) ≤ countAlive bSim ∧
      ∀ i < nAg bSim, aliveAfter (simulate_tick bSim msC4) i → ¬ ate bSim msC4 i →
        ((agentAt (simulate_tick bSim msC4) i).body.length =
            (agentAt bSim i).body.length ∧
          (agentAt bSim i).health =
            (agentAt (simulate_tick bSim msC4) i).health + 1 + hzDmg bSim msC4 i)) :=
  ⟨by decide, simulate_tick_conservation bSim msC4 (by decide)⟩

/-- A 5x5 board with food at (2, 1) in front of agent 0. -/
def bSim5 : SimBoard :=
  { width := 5, height := 5, hazardDamage := 3, food := [⟨2, 1⟩], hazards := [],
    agents := [⟨10, [⟨1, 1⟩, ⟨1, 0⟩]⟩, ⟨10, [⟨3, 1⟩, ⟨3, 0⟩]⟩] }

/-- Moves sending agent 0 of bSim5 onto the food and agent 1 up. -/
def msC5 : Nat → Move := fun i => if i = 0 then .right else .up

/-- Witness for C5: the theorem applied at bSim5 with agent 0 eating. -/
theorem simulate_tick_eating_witness :
    validB bSim5 ∧
    (∀ i < nAg bSim5, aliveAfter (simulate_tick bSim5 msC5) i → ate bSim5 msC5 i →
      ((agentAt (simulate_tick bSim5 msC5) i).health = maxHealth ∧
        (agentAt (simulate_tick bSim5 msC5) i).body.length =
          (agentAt bSim5 i).body.length + 1)) :=
  ⟨by decide, simulate_tick_eating bSim5 msC5 (by decide)⟩
